import Mathlib

/-!
Shallow embedding of the aim-trainer's shot-resolution and miss-analysis core.

The embedded code is `src/components/Game3D.tsx` (target store, raycast
resolver, miss projector, shot log, session finish) together with the
results-screen `analysis` aggregation and the `handleGameFinish` stats
builder from the unnamed source file.  Geometry is carried in exact
rationals; the two square-root comparisons of the source
(`distToCenter < radius` and the running minimum over `angleTo` values)
are decided through the equivalent squared comparisons, with bridging
lemmas over `ℝ` justifying the encodings.  Randomness (`Math.random()`
draws, the random id string) and wall-clock timestamps are supplied as
explicit inputs.
-/

namespace AimTrain

/-- A 3D vector with exact rational components (embedding of `THREE.Vector3`). -/
@[ext]
structure Vec3 where
  x : ℚ
  y : ℚ
  z : ℚ
deriving DecidableEq, Repr

def Vec3.add (a b : Vec3) : Vec3 := ⟨a.x + b.x, a.y + b.y, a.z + b.z⟩

def Vec3.sub (a b : Vec3) : Vec3 := ⟨a.x - b.x, a.y - b.y, a.z - b.z⟩

def Vec3.smul (c : ℚ) (a : Vec3) : Vec3 := ⟨c * a.x, c * a.y, c * a.z⟩

instance : Add Vec3 := ⟨Vec3.add⟩

instance : Sub Vec3 := ⟨Vec3.sub⟩

instance : SMul ℚ Vec3 := ⟨Vec3.smul⟩

/-- Dot product (`THREE.Vector3.dot`). -/
def Vec3.dot (a b : Vec3) : ℚ := a.x * b.x + a.y * b.y + a.z * b.z

/-- Squared Euclidean length (`THREE.Vector3.lengthSq`). -/
def Vec3.lengthSq (a : Vec3) : ℚ := Vec3.dot a a

lemma Vec3.add_def (a b : Vec3) :
    a + b = ⟨a.x + b.x, a.y + b.y, a.z + b.z⟩ := rfl

lemma Vec3.sub_def (a b : Vec3) :
    a - b = ⟨a.x - b.x, a.y - b.y, a.z - b.z⟩ := rfl

lemma Vec3.smul_def (c : ℚ) (a : Vec3) :
    c • a = ⟨c * a.x, c * a.y, c * a.z⟩ := rfl

/-- The three scenario variants (`ScenarioType` in `types.ts`). -/
inductive ScenarioType where
  | GRIDSHOT
  | TRACKING
  | FLICKING
deriving DecidableEq, Repr

/-- A live target (`TargetEntity` in `types.ts`). -/
structure TargetEntity where
  id : String
  position : Vec3
  active : Bool
  velocity : Vec3
  radius : ℚ
deriving DecidableEq, Repr

/-- One shot-log record (`ShotData` in `types.ts`).  Optional fields are
`Option`; the source stores `distanceFromCenter = diff.length()`, which is
irrational over ℚ, so this embedding carries its square `diff.lengthSq()`
instead — only the definedness of the field is consumed downstream. -/
structure ShotData where
  timestamp : ℕ
  hit : Bool
  targetId : Option String
  relativeX : Option ℚ
  relativeY : Option ℚ
  distanceFromCenter : Option ℚ
  targetVelocityX : Option ℚ
deriving DecidableEq, Repr

/-- Session summary (`SessionStats` in `types.ts`; `avgTimeOnTarget` is never
written by the program and is omitted). -/
structure SessionStats where
  score : ℕ
  shotsFired : ℕ
  shotsHit : ℕ
  accuracy : ℚ
  missData : List ShotData
  scenario : ScenarioType
  sensitivity : ℚ
deriving DecidableEq, Repr

/-- Embedding of `spawnTarget` (Game3D.tsx lines 89-110).  The random draws
of the source are explicit inputs: `idDraw` is the string produced by
`Math.random().toString(36).substr(2, 9)`, and `r1 r2 r3 rs rv` are the five
`Math.random()` values used for position, velocity sign and velocity
magnitude.  Returns the list with the new target pushed, and the target. -/
def spawnTarget (scenario : ScenarioType) (currentList : List TargetEntity)
    (fixedPos : Option Vec3) (idDraw : String) (r1 r2 r3 rs rv : ℚ) :
    List TargetEntity × TargetEntity :=
  let x : ℚ := match fixedPos with | some p => p.x | none => (r1 - 1/2) * 10
  let y : ℚ := match fixedPos with | some p => p.y | none => 1 + r2 * 3
  let z : ℚ := match fixedPos with | some p => p.z | none => -8 - r3 * 5
  let velocity : Vec3 :=
    if scenario = ScenarioType.TRACKING
    then ⟨(if rs > 1/2 then 1 else -1) * (2 + rv * 2), 0, 0⟩
    else ⟨0, 0, 0⟩
  let newTarget : TargetEntity :=
    { id := idDraw
      position := ⟨x, y, z⟩
      active := true
      velocity := velocity
      radius := if scenario = ScenarioType.FLICKING then 3/10 else 1/2 }
  (currentList ++ [newTarget], newTarget)

/-- Embedding of the per-target bounce update in the `useFrame` game loop
(Game3D.tsx lines 115-130): advance x by `velocity_x * delta`; if the result
leaves `(-8, 8)`, negate the horizontal velocity and recompute the position
from the old position with the negated velocity. -/
def tickTarget (t : TargetEntity) (delta : ℚ) : TargetEntity :=
  let newX := t.position.x + t.velocity.x * delta
  let velX := t.velocity.x
  if newX > 8 ∨ newX < -8 then
    { t with
      position := ⟨t.position.x + (-velX) * delta, t.position.y, t.position.z⟩
      velocity := ⟨-velX, t.velocity.y, t.velocity.z⟩ }
  else
    { t with
      position := ⟨newX, t.position.y, t.position.z⟩
      velocity := ⟨velX, t.velocity.y, t.velocity.z⟩ }

/-- Embedding of the `useFrame` callback (Game3D.tsx lines 113-132): the
kinematic update runs only in the TRACKING scenario. -/
def tickFrame (scenario : ScenarioType) (targets : List TargetEntity)
    (delta : ℚ) : List TargetEntity :=
  if scenario = ScenarioType.TRACKING
  then targets.map (fun t => tickTarget t delta)
  else targets

/-- Decides `Real.sqrt x < r` for `0 ≤ x` by the equivalent squared
comparison.  Used for the source's `distToCenter < target.radius` test,
where `distToCenter` is the Euclidean length `Real.sqrt x`. -/
def sqrtLtQ (x r : ℚ) : Bool := decide (0 < r ∧ x < r * r)

/-- The encoding `sqrtLtQ` agrees with the real comparison it stands for. -/
lemma sqrtLtQ_iff (x r : ℚ) (hx : 0 ≤ x) :
    sqrtLtQ x r = true ↔ Real.sqrt (x : ℝ) < (r : ℝ) := by
  unfold sqrtLtQ
  simp only [decide_eq_true_eq]
  constructor
  · rintro ⟨hr, hxr⟩
    have hr' : (0 : ℝ) < (r : ℝ) := by exact_mod_cast hr
    have hx2 : (x : ℝ) < (r : ℝ) ^ 2 := by
      have hxr' : (x : ℝ) < (r : ℝ) * (r : ℝ) := by exact_mod_cast hxr
      nlinarith
    exact (Real.sqrt_lt' hr').mpr hx2
  · intro h
    have h0 : (0 : ℝ) ≤ Real.sqrt (x : ℝ) := Real.sqrt_nonneg _
    have hr : (0 : ℝ) < (r : ℝ) := lt_of_le_of_lt h0 h
    refine ⟨by exact_mod_cast hr, ?_⟩
    have hx2 : (x : ℝ) < (r : ℝ) ^ 2 := (Real.sqrt_lt' hr).mp h
    have hxr : (x : ℝ) < ((r * r : ℚ) : ℝ) := by push_cast; nlinarith
    exact_mod_cast hxr

/-- Decides `a1 / Real.sqrt m1 > a2 / Real.sqrt m2` for `0 < m1`, `0 < m2`,
by sign analysis and cross-squaring.  Used to compare cosines of the
`angleTo` values in the intended-target running minimum: `acos` is strictly
decreasing, so `angle1 < angle2` exactly when `cos1 > cos2`. -/
def sqrtRatGt (a1 m1 a2 m2 : ℚ) : Bool :=
  if 0 < a1 then
    if 0 < a2 then decide (a1 * a1 * m2 > a2 * a2 * m1) else true
  else if 0 ≤ a2 then false
  else decide (a1 * a1 * m2 < a2 * a2 * m1)

/-- The encoding `sqrtRatGt` agrees with the real comparison it stands for. -/
lemma sqrtRatGt_iff (a1 m1 a2 m2 : ℚ) (h1 : 0 < m1) (h2 : 0 < m2) :
    sqrtRatGt a1 m1 a2 m2 = true ↔
      (a2 : ℝ) / Real.sqrt (m2 : ℝ) < (a1 : ℝ) / Real.sqrt (m1 : ℝ) := by
  have s1 : (0 : ℝ) < Real.sqrt (m1 : ℝ) :=
    Real.sqrt_pos.mpr (by exact_mod_cast h1)
  have s2 : (0 : ℝ) < Real.sqrt (m2 : ℝ) :=
    Real.sqrt_pos.mpr (by exact_mod_cast h2)
  have sq1 : Real.sqrt (m1 : ℝ) * Real.sqrt (m1 : ℝ) = (m1 : ℝ) :=
    Real.mul_self_sqrt (by exact_mod_cast h1.le)
  have sq2 : Real.sqrt (m2 : ℝ) * Real.sqrt (m2 : ℝ) = (m2 : ℝ) :=
    Real.mul_self_sqrt (by exact_mod_cast h2.le)
  have key : ((a2 : ℝ) / Real.sqrt (m2 : ℝ) < (a1 : ℝ) / Real.sqrt (m1 : ℝ)) ↔
      (a2 : ℝ) * Real.sqrt (m1 : ℝ) < (a1 : ℝ) * Real.sqrt (m2 : ℝ) :=
    div_lt_div_iff s2 s1
  unfold sqrtRatGt
  by_cases ha1 : 0 < a1
  · by_cases ha2 : 0 < a2
    · simp only [ha1, ha2, if_pos, decide_eq_true_eq]
      rw [key]
      have ra1 : (0 : ℝ) < (a1 : ℝ) := by exact_mod_cast ha1
      have ra2 : (0 : ℝ) < (a2 : ℝ) := by exact_mod_cast ha2
      constructor
      · intro h
        have h' : (a2 : ℝ) * (a2 : ℝ) * (m1 : ℝ) < (a1 : ℝ) * (a1 : ℝ) * (m2 : ℝ) := by
          exact_mod_cast h
        nlinarith [mul_pos ra2 s1, mul_pos ra1 s2, sq1, sq2,
          sq_nonneg ((a2 : ℝ) * Real.sqrt (m1 : ℝ) - (a1 : ℝ) * Real.sqrt (m2 : ℝ))]
      · intro h
        have h' : (a2 : ℝ) * (a2 : ℝ) * (m1 : ℝ) < (a1 : ℝ) * (a1 : ℝ) * (m2 : ℝ) := by
          nlinarith [mul_pos ra2 s1, mul_pos ra1 s2, sq1, sq2]
        exact_mod_cast h'
    · simp only [ha1, ha2, if_pos, if_neg, if_false, true_iff]
      rw [key]
      have ra1 : (0 : ℝ) < (a1 : ℝ) := by exact_mod_cast ha1
      have ra2 : (a2 : ℝ) ≤ 0 := by exact_mod_cast not_lt.mp ha2
      nlinarith [mul_pos ra1 s2, mul_nonpos_of_nonpos_of_nonneg ra2 s1.le]
  · by_cases ha2 : 0 ≤ a2
    · have ra1 : (a1 : ℝ) ≤ 0 := by exact_mod_cast not_lt.mp ha1
      have ra2 : (0 : ℝ) ≤ (a2 : ℝ) := by exact_mod_cast ha2
      have hP : (a1 : ℝ) * Real.sqrt (m2 : ℝ) ≤ (a2 : ℝ) * Real.sqrt (m1 : ℝ) := by
        nlinarith [mul_nonneg ra2 s1.le, mul_nonpos_of_nonpos_of_nonneg ra1 s2.le]
      simp only [ha1, ha2, if_neg, if_pos, if_false]
      simp only [Bool.false_eq_true, false_iff]
      rw [key]
      exact not_lt.mpr hP
    · simp only [ha1, ha2, if_neg, if_false, decide_eq_true_eq]
      rw [key]
      have ra1 : (a1 : ℝ) ≤ 0 := by exact_mod_cast not_lt.mp ha1
      have ra2 : (a2 : ℝ) < 0 := by exact_mod_cast not_le.mp ha2
      constructor
      · intro h
        have h' : (a1 : ℝ) * (a1 : ℝ) * (m2 : ℝ) < (a2 : ℝ) * (a2 : ℝ) * (m1 : ℝ) := by
          exact_mod_cast h
        nlinarith [sq1, sq2, mul_neg_of_neg_of_pos ra2 s1,
          mul_nonpos_of_nonpos_of_nonneg ra1 s2.le]
      · intro h
        have h' : (a1 : ℝ) * (a1 : ℝ) * (m2 : ℝ) < (a2 : ℝ) * (a2 : ℝ) * (m1 : ℝ) := by
          nlinarith [sq1, sq2, mul_neg_of_neg_of_pos ra2 s1,
            mul_nonpos_of_nonpos_of_nonneg ra1 s2.le]
        exact_mod_cast h'

/-- Camera pose at the moment of firing: world position plus the camera's
local right/up/forward axes (the images of `(1,0,0)`, `(0,1,0)` under the
camera quaternion, and `camera.getWorldDirection`). -/
structure Camera where
  position : Vec3
  right : Vec3
  up : Vec3
  forward : Vec3
deriving DecidableEq, Repr

/-- A ray (`THREE.Ray`): origin plus direction. -/
structure Ray3 where
  origin : Vec3
  direction : Vec3
deriving DecidableEq, Repr

/-- A plane (`THREE.Plane`): `normal · p + constant = 0`. -/
structure Plane3 where
  normal : Vec3
  constant : ℚ
deriving DecidableEq, Repr

/-- `THREE.Plane.setFromNormalAndCoplanarPoint`: normal is taken verbatim,
`constant = -(point · normal)`. -/
def planeThrough (normal point : Vec3) : Plane3 :=
  ⟨normal, -(Vec3.dot point normal)⟩

/-- `THREE.Plane.distanceToPoint`. -/
def Plane3.distanceToPoint (pl : Plane3) (p : Vec3) : ℚ :=
  Vec3.dot pl.normal p + pl.constant

/-- `THREE.Ray.distanceToPlane`: `none` when the ray is parallel to and not
coplanar with the plane, or when the intersection lies behind the origin. -/
def Ray3.distanceToPlane (r : Ray3) (pl : Plane3) : Option ℚ :=
  let denominator := Vec3.dot pl.normal r.direction
  if denominator = 0 then
    if pl.distanceToPoint r.origin = 0 then some 0 else none
  else
    let t := -(Vec3.dot r.origin pl.normal + pl.constant) / denominator
    if 0 ≤ t then some t else none

/-- `THREE.Ray.intersectPlane`: the point `origin + t • direction` when the
ray meets the plane, `none` otherwise (the caller's pre-allocated target
vector is then left unchanged). -/
def Ray3.intersectPlane (r : Ray3) (pl : Plane3) : Option Vec3 :=
  (r.distanceToPlane pl).map (fun t => r.origin + t • r.direction)

/-- `raycaster.setFromCamera(new THREE.Vector2(0, 0), camera)`: for the
centre of the screen the ray starts at the camera position and points along
the camera's view direction. -/
def setFromCameraCenter (cam : Camera) : Ray3 :=
  ⟨cam.position, cam.forward⟩

/-- Squared distance from the target centre to the closest point on the
(infinite) ray — the square of `distToCenter` in `handleShoot`
(Game3D.tsx lines 162-169). -/
def hitTestDistSq (camPos rayDir : Vec3) (target : TargetEntity) : ℚ :=
  let toTarget := target.position - camPos
  let projectionLength := Vec3.dot toTarget rayDir
  let closestPointOnRay := camPos + projectionLength • rayDir
  Vec3.lengthSq (closestPointOnRay - target.position)

/-- The hit test `distToCenter < target.radius` (Game3D.tsx line 171),
decided via the squared comparison `sqrtLtQ`. -/
def isHit (camPos rayDir : Vec3) (target : TargetEntity) : Bool :=
  sqrtLtQ (hitTestDistSq camPos rayDir target) target.radius

/-- Cosine key of `rayDir.angleTo(toTarget.normalize())` (Game3D.tsx line
177): the angle's cosine is `dot / √(lengthSq rayDir * lengthSq toTarget)`
(normalisation cancels), represented as the pair (numerator, radicand);
the degenerate zero-denominator case yields angle `π/2`, cosine `0`.
Angles compare in the opposite order of these cosines. -/
def angleKey (rayDir toTarget : Vec3) : ℚ × ℚ :=
  if Vec3.lengthSq rayDir * Vec3.lengthSq toTarget = 0 then (0, 1)
  else (Vec3.dot rayDir toTarget, Vec3.lengthSq rayDir * Vec3.lengthSq toTarget)

/-- Accumulator of the `forEach` scan in `handleShoot` (Game3D.tsx lines
146-182): `hitFound`/`hitTargetId` from the hit test, and the running
minimum-angle target (`minAngularDist`/`closestTarget`); `best = none`
plays the role of `minAngularDist = Infinity`. -/
structure ResolveAcc where
  hitFound : Bool
  hitTargetId : String
  best : Option (ℚ × ℚ × TargetEntity)
deriving Repr

/-- The running-minimum update: a fresh target replaces the stored one
exactly when its angle is strictly smaller, i.e. its cosine key strictly
greater (`angle < minAngularDist`, Game3D.tsx line 178); against
`minAngularDist = Infinity` any angle wins. -/
def updateBest (camPos rayDir : Vec3) (best : Option (ℚ × ℚ × TargetEntity))
    (target : TargetEntity) : Option (ℚ × ℚ × TargetEntity) :=
  let k := angleKey rayDir (target.position - camPos)
  match best with
  | none => some (k.1, k.2, target)
  | some (a0, m0, t0) =>
      if sqrtRatGt k.1 k.2 a0 m0 then some (k.1, k.2, target)
      else some (a0, m0, t0)

/-- Loop body of the `forEach` over live targets (Game3D.tsx lines 159-182):
a hit sets `hitFound` and overwrites `hitTargetId`; the intended-target
running minimum is updated in the same pass. -/
def resolveStep (camPos rayDir : Vec3) (acc : ResolveAcc)
    (target : TargetEntity) : ResolveAcc :=
  { hitFound := acc.hitFound || isHit camPos rayDir target
    hitTargetId := if isHit camPos rayDir target then target.id else acc.hitTargetId
    best := updateBest camPos rayDir acc.best target }

/-- The whole scan: fold of `resolveStep` over the live targets in Target
Store iteration order, starting from `hitFound = false`, `hitTargetId = ""`,
`minAngularDist = Infinity`. -/
def resolve (camPos rayDir : Vec3) (targets : List TargetEntity) : ResolveAcc :=
  targets.foldl (resolveStep camPos rayDir) ⟨false, "", none⟩

/-- The intended target chosen by the scan, if any. -/
def ResolveAcc.intendedId (acc : ResolveAcc) : Option String :=
  acc.best.map (fun b => b.2.2.id)

/-- The miss record pushed by `handleShoot`'s miss-analysis branch
(Game3D.tsx lines 196-223).  The source allocates
`const intersection = new THREE.Vector3()` — the zero vector —, calls
`raycaster.ray.intersectPlane(plane, intersection)` which writes the point
only on success, and then guards the push with `if (intersection)`, a test
of the always-truthy `Vector3` object rather than of `intersectPlane`'s
`null` return: the record is therefore pushed unconditionally, computed
from the zero vector whenever the intersection failed. -/
def missShotRecord (cam : Camera) (ray : Ray3) (now : ℕ)
    (closestTarget : TargetEntity) : ShotData :=
  let targetPos := closestTarget.position
  let plane := planeThrough cam.forward targetPos
  let intersection := (ray.intersectPlane plane).getD ⟨0, 0, 0⟩
  let diff := intersection - targetPos
  { timestamp := now
    hit := false
    targetId := none
    relativeX := some (Vec3.dot diff cam.right)
    relativeY := some (Vec3.dot diff cam.up)
    distanceFromCenter := some (Vec3.lengthSq diff)
    targetVelocityX := some closestTarget.velocity.x }

/-- The hit record pushed by `handleShoot` (Game3D.tsx line 188). -/
def hitRecord (now : ℕ) (targetId : String) : ShotData :=
  ⟨now, true, some targetId, none, none, none, none⟩

/-- The offset-less miss record pushed when no target was live
(Game3D.tsx line 225). -/
def blankMissRecord (now : ℕ) : ShotData :=
  ⟨now, false, none, none, none, none, none⟩

/-- The mutable session state touched by a fire event: live targets, score,
shots fired and the append-only shot log. -/
structure GameState where
  targets : List TargetEntity
  score : ℕ
  shotsFired : ℕ
  shotData : List ShotData
deriving DecidableEq, Repr

/-- Embedding of `handleShoot` (Game3D.tsx lines 137-228).  `now` is
`Date.now()`; `idDraw r1 r2 r3 rs rv` are the random draws consumed by the
respawn on a hit.  On a hit: score and log grow, the hit target's id is
filtered out and one replacement is spawned.  On a miss: the miss-analysis
record (via the intended target) or the offset-less record is appended. -/
def handleShoot (scenario : ScenarioType) (cam : Camera) (now : ℕ)
    (idDraw : String) (r1 r2 r3 rs rv : ℚ) (s : GameState) : GameState :=
  let res := resolve cam.position cam.forward s.targets
  if res.hitFound then
    { targets := (spawnTarget scenario
        (s.targets.filter (fun t => t.id ≠ res.hitTargetId))
        none idDraw r1 r2 r3 rs rv).1
      score := s.score + 1
      shotsFired := s.shotsFired + 1
      shotData := s.shotData ++ [hitRecord now res.hitTargetId] }
  else
    match res.best with
    | some (_, _, closestTarget) =>
        { s with
          shotsFired := s.shotsFired + 1
          shotData := s.shotData ++
            [missShotRecord cam (setFromCameraCenter cam) now closestTarget] }
    | none =>
        { s with
          shotsFired := s.shotsFired + 1
          shotData := s.shotData ++ [blankMissRecord now] }

/-- The inputs of one fire event (camera pose, wall clock, random draws). -/
structure FireEvent where
  cam : Camera
  now : ℕ
  idDraw : String
  r1 : ℚ
  r2 : ℚ
  r3 : ℚ
  rs : ℚ
  rv : ℚ
deriving Repr

/-- A sequence of fire events applied in order. -/
def runShots (scenario : ScenarioType) (fires : List FireEvent)
    (s : GameState) : GameState :=
  fires.foldl
    (fun st f => handleShoot scenario f.cam f.now f.idDraw f.r1 f.r2 f.r3 f.rs f.rv st) s

/-- JavaScript truthiness of `m.field! > 0` on an optional number:
`undefined > 0` is false. -/
def optPos (o : Option ℚ) : Bool :=
  match o with
  | some v => decide (0 < v)
  | none => false

/-- JavaScript truthiness of `m.field! < 0` on an optional number:
`undefined < 0` is false. -/
def optNeg (o : Option ℚ) : Bool :=
  match o with
  | some v => decide (v < 0)
  | none => false

/-- Result of the results-screen aggregation (`analysis` memo). -/
structure AnalysisResult where
  left : ℕ
  right : ℕ
  top : ℕ
  bottom : ℕ
  overshoots : ℕ
  undershoots : ℕ
  recommendation : String
deriving DecidableEq, Repr

def perfectMsg : String := "Perfect run! Your sensitivity is well-tuned."

def overshootMsg : String :=
  "You consistently OVERSHOOT moving targets. \nTry LOWERING your sensitivity or DPI slightly."

def undershootMsg : String :=
  "You consistently UNDERSHOOT moving targets. \nTry INCREASING your sensitivity or DPI slightly."

def balancedMsg : String :=
  "Your aim is balanced. Continue training to build consistency."

def missLeftMsg : String :=
  "You consistently miss to the LEFT. Check your initial crosshair placement or grip stability."

def missRightMsg : String :=
  "You consistently miss to the RIGHT. You might be pulling your mouse too fast."

def verticalDriftMsg : String :=
  "Significant vertical drift detected. Check your posture and mousepad friction."

def wideScatterMsg : String :=
  "Wide horizontal scatter detected. Your sensitivity might be too high for precise micro-adjustments."

/-- The tracking-scenario overshoot test (`(tvx! > 0 && rx! > 0) ||
(tvx! < 0 && rx! < 0)`). -/
def overshootTest (m : ShotData) : Bool :=
  (optPos m.targetVelocityX && optPos m.relativeX) ||
  (optNeg m.targetVelocityX && optNeg m.relativeX)

/-- The tracking-scenario undershoot test (the opposite-sign case). -/
def undershootTest (m : ShotData) : Bool :=
  (optPos m.targetVelocityX && optNeg m.relativeX) ||
  (optNeg m.targetVelocityX && optPos m.relativeX)

/-- Embedding of the results-screen `analysis` memo (ResultsScreen lines
21-82): filter the log to misses, short-circuit on an empty miss set,
directional counts via `(m.relativeX || 0)` comparisons, tracking
overshoot/undershoot counts, then the recommendation heuristics. -/
def analysis (stats : SessionStats) : AnalysisResult :=
  let misses := stats.missData.filter (fun s => !s.hit)
  let totalMisses := misses.length
  if totalMisses = 0 then
    ⟨0, 0, 0, 0, 0, 0, perfectMsg⟩
  else
    let left := (misses.filter (fun m => m.relativeX.getD 0 < 0)).length
    let right := (misses.filter (fun m => m.relativeX.getD 0 > 0)).length
    let top := (misses.filter (fun m => m.relativeY.getD 0 > 0)).length
    let bottom := (misses.filter (fun m => m.relativeY.getD 0 < 0)).length
    let trackingMisses := misses.filter (fun m => m.targetVelocityX.isSome)
    let overshoots :=
      if stats.scenario = ScenarioType.TRACKING
      then (trackingMisses.filter overshootTest).length else 0
    let undershoots :=
      if stats.scenario = ScenarioType.TRACKING
      then (trackingMisses.filter undershootTest).length else 0
    let recommendation :=
      if stats.scenario = ScenarioType.TRACKING then
        if (overshoots : ℚ) > (undershoots : ℚ) * (3/2) ∧ overshoots > 3 then
          overshootMsg
        else if (undershoots : ℚ) > (overshoots : ℚ) * (3/2) ∧ undershoots > 3 then
          undershootMsg
        else balancedMsg
      else
        let horizontalBias := ((left : ℤ) - (right : ℤ)).natAbs
        let verticalBias := ((top : ℤ) - (bottom : ℤ)).natAbs
        if (horizontalBias : ℚ) > (totalMisses : ℚ) * (1/2) then
          if left > right then missLeftMsg else missRightMsg
        else if (verticalBias : ℚ) > (totalMisses : ℚ) * (1/2) then
          verticalDriftMsg
        else
          let avgSpread :=
            (misses.foldl (fun acc m => acc + |m.relativeX.getD 0|) 0) / (totalMisses : ℚ)
          if avgSpread > 3/2 then wideScatterMsg else balancedMsg
    ⟨left, right, top, bottom, overshoots, undershoots, recommendation⟩

/-- Embedding of `handleGameFinish` (App): builds the read-only session
summary; `accuracy = (shotsHit / shotsFired) * 100` guarded by
`shotsFired > 0`. -/
def handleGameFinish (scenario : ScenarioType) (sensitivity : ℚ)
    (score shotsFired shotsHit : ℕ) (missData : List ShotData) : SessionStats :=
  { score := score
    shotsFired := shotsFired
    shotsHit := shotsHit
    accuracy := if shotsFired > 0 then ((shotsHit : ℚ) / (shotsFired : ℚ)) * 100 else 0
    missData := missData
    scenario := scenario
    sensitivity := sensitivity }

/-- The timer-expiry call (Game3D.tsx line 73):
`onFinish(scoreRef.current, shotsFiredRef.current, scoreRef.current,
shotDataRef.current)` — the score counter is passed for both the `score`
and the `shotsHit` argument. -/
def endSession (scenario : ScenarioType) (sensitivity : ℚ)
    (s : GameState) : SessionStats :=
  handleGameFinish scenario sensitivity s.score s.shotsFired s.score s.shotData

/-- One event consumed by the core: a rendered frame (kinematics tick) or a
fire input. -/
inductive CoreEvent where
  | frame (delta : ℚ)
  | fire (cam : Camera) (now : ℕ) (idDraw : String) (r1 r2 r3 rs rv : ℚ)

/-- One step of the core.  `sensitivity` is in scope exactly as the
`GameController` prop is in the source: received, but consumed by no
core computation. -/
def coreStep (sensitivity : ℚ) (scenario : ScenarioType) (s : GameState) :
    CoreEvent → GameState
  | .frame delta => { s with targets := tickFrame scenario s.targets delta }
  | .fire cam now idDraw r1 r2 r3 rs rv =>
      handleShoot scenario cam now idDraw r1 r2 r3 rs rv s

/-- A full core run over a sequence of events. -/
def runCore (sensitivity : ℚ) (scenario : ScenarioType) (s0 : GameState)
    (events : List CoreEvent) : GameState :=
  events.foldl (coreStep sensitivity scenario) s0

/-- A full session: run the core, then build the session summary at timer
expiry. -/
def runSession (sensitivity : ℚ) (scenario : ScenarioType) (s0 : GameState)
    (events : List CoreEvent) : SessionStats :=
  endSession scenario sensitivity (runCore sensitivity scenario s0 events)

/-- Translation of a target by a fixed vector (moves only the position). -/
def translateT (v : Vec3) (t : TargetEntity) : TargetEntity :=
  { t with position := t.position + v }

/-- Renaming of the stored best-angle entry under translation. -/
def bmap (v : Vec3) (b : Option (ℚ × ℚ × TargetEntity)) :
    Option (ℚ × ℚ × TargetEntity) :=
  b.map (fun e => (e.1, e.2.1, translateT v e.2.2))

/-- Concrete origin used by the example configurations below. -/
def originV : Vec3 := ⟨0, 0, 0⟩

/-- Concrete view direction used by the example configurations below. -/
def negZ : Vec3 := ⟨0, 0, -1⟩

/-- A target dead ahead at depth 5. -/
def tgtA : TargetEntity := ⟨"a", ⟨0, 0, -5⟩, true, ⟨0, 0, 0⟩, 1/2⟩

/-- A second target dead ahead at depth 6, behind `tgtA` along the ray. -/
def tgtB : TargetEntity := ⟨"b", ⟨0, 0, -6⟩, true, ⟨0, 0, 0⟩, 1/2⟩

/-- A moving target used for the tick counterexample. -/
def runawayTarget : TargetEntity := ⟨"t", ⟨0, 3/2, -10⟩, true, ⟨3, 0, 0⟩, 1/2⟩

/-- A live target whose id collides with the next random draw. -/
def preexistingTarget : TargetEntity :=
  ⟨"abc123def", ⟨0, 1, -10⟩, true, ⟨0, 0, 0⟩, 1/2⟩

/-- Camera for the degenerate-geometry evaluation: looking down `-z`. -/
def c2cam : Camera := ⟨⟨0, 0, 0⟩, ⟨1, 0, 0⟩, ⟨0, 1, 0⟩, ⟨0, 0, -1⟩⟩

/-- A fired ray perpendicular to the camera forward direction, hence
parallel to the miss-projection plane. -/
def c2ray : Ray3 := ⟨⟨0, 0, 0⟩, ⟨1, 0, 0⟩⟩

/-- The intended target for the degenerate-geometry evaluation. -/
def c2target : TargetEntity := ⟨"t1", ⟨0, 0, -5⟩, true, ⟨0, 0, 0⟩, 1/2⟩

/-- One tracking miss with positive horizontal offset and positive target
velocity. -/
def trackMiss (i : ℕ) : ShotData := ⟨i, false, none, some 1, some 0, some 1, some 3⟩

/-- A TRACKING session log of 5 misses, all with `relative_x > 0` and
`target_velocity_x > 0`. -/
def exampleTrackingStats : SessionStats :=
  ⟨0, 5, 0, 0, [trackMiss 0, trackMiss 1, trackMiss 2, trackMiss 3, trackMiss 4],
   ScenarioType.TRACKING, 1⟩

/-- A session summary with an empty shot log. -/
def emptyStats : SessionStats := ⟨0, 0, 0, 0, [], ScenarioType.GRIDSHOT, 1⟩

/-- A session state at timer expiry: one hit out of two shots. -/
def exampleEndState : GameState := ⟨[], 1, 2, []⟩

end AimTrain

namespace AimTrain

/-- C7: for every scenario, the Session Analyzer applied to a shot log whose
miss set is empty returns all six counts equal to zero and the "Perfect run"
recommendation, short-circuiting the later heuristic steps. -/
theorem c7_empty_misses_perfect (stats : SessionStats)
    (h : stats.missData.filter (fun s => !s.hit) = []) :
    analysis stats = ⟨0, 0, 0, 0, 0, 0, perfectMsg⟩ := by
  unfold analysis
  rw [h]
  rfl

/-- Witness for C7 at a concrete empty log. -/
theorem c7_empty_misses_perfect_witness :
    emptyStats.missData.filter (fun s => !s.hit) = [] ∧
    analysis emptyStats = ⟨0, 0, 0, 0, 0, 0, perfectMsg⟩ :=
  ⟨rfl, c7_empty_misses_perfect emptyStats rfl⟩

/-- C10: the timer-expiry call passes the score counter for both the
`score` and the `shotsHit` field of the session summary, so `shotsHit`
always equals `score`, and hence `accuracy = score / shots_fired * 100`
whenever shots were fired. -/
theorem c10_shots_hit_eq_score (scenario : ScenarioType) (sensitivity : ℚ)
    (s : GameState) :
    (endSession scenario sensitivity s).shotsHit
        = (endSession scenario sensitivity s).score ∧
    (0 < (endSession scenario sensitivity s).shotsFired →
      (endSession scenario sensitivity s).accuracy =
        ((endSession scenario sensitivity s).score : ℚ) /
          ((endSession scenario sensitivity s).shotsFired : ℚ) * 100) := by
  refine ⟨rfl, ?_⟩
  intro h
  unfold endSession handleGameFinish at h ⊢
  simp only at h ⊢
  rw [if_pos h]

/-- Witness for C10 at a concrete session end (1 hit, 2 shots). -/
theorem c10_shots_hit_eq_score_witness :
    0 < (endSession ScenarioType.GRIDSHOT 1 exampleEndState).shotsFired ∧
    (endSession ScenarioType.GRIDSHOT 1 exampleEndState).accuracy =
      ((endSession ScenarioType.GRIDSHOT 1 exampleEndState).score : ℚ) /
        ((endSession ScenarioType.GRIDSHOT 1 exampleEndState).shotsFired : ℚ) * 100 :=
  ⟨by decide, (c10_shots_hit_eq_score ScenarioType.GRIDSHOT 1 exampleEndState).2 (by decide)⟩

/-- C3 counterexample: the claim's final clause — "the target's horizontal
coordinate never exceeds the ±8 bound after any tick" — is false: a moving
target at `x = 0` with `velocity_x = 3` ticked with `dt = 3` first computes
`x = 9 > 8`, reflects, and lands at `0 - 3*3 = -9`, outside the bound. -/
theorem c3_bound_counterexample :
    runawayTarget.velocity.x ≠ 0 ∧
    (tickTarget runawayTarget 3).position.x = -9 ∧
    (tickTarget runawayTarget 3).position.x < -8 := by
  norm_num [tickTarget, runawayTarget]

/-- C3 (amended): tick advances the horizontal coordinate by
`velocity_x * dt`; when the advanced coordinate leaves `[-8, 8]` the
horizontal velocity is negated and the position recomputed from the old
position with the negated velocity within the same tick (in particular the
target at `x = 7.9`, `velocity_x = 3` ends at `x = 7.6`, `velocity_x = -3`
after `tick(0.1)`); vertical and depth components are never modified.  The
recomputed coordinate is not re-checked against the bound. -/
theorem c3_tick_reflection (t : TargetEntity) (delta : ℚ) :
    ((tickTarget t delta).velocity.x =
      if t.position.x + t.velocity.x * delta > 8 ∨
         t.position.x + t.velocity.x * delta < -8
      then -t.velocity.x else t.velocity.x) ∧
    (tickTarget t delta).position.x
        = t.position.x + (tickTarget t delta).velocity.x * delta ∧
    (tickTarget t delta).position.y = t.position.y ∧
    (tickTarget t delta).position.z = t.position.z ∧
    (tickTarget t delta).velocity.y = t.velocity.y ∧
    (tickTarget t delta).velocity.z = t.velocity.z ∧
    tickTarget ⟨"t", ⟨79/10, 3/2, -10⟩, true, ⟨3, 0, 0⟩, 1/2⟩ (1/10) =
      ⟨"t", ⟨38/5, 3/2, -10⟩, true, ⟨-3, 0, 0⟩, 1/2⟩ := by
  refine ⟨?_, ?_, ?_, ?_, ?_, ?_, by norm_num [tickTarget]⟩ <;>
    · simp only [tickTarget]
      split <;> simp

/-- C4 counterexample: spawning over a store already holding the id
`"abc123def"` with the random draw `"abc123def"` yields two live targets
with the same id — uniqueness is not enforced by construction. -/
theorem c4_id_collision_counterexample :
    ((spawnTarget ScenarioType.GRIDSHOT [preexistingTarget] none
        "abc123def" 0 0 0 0 0).1.map TargetEntity.id
      = ["abc123def", "abc123def"]) ∧
    ¬ ((spawnTarget ScenarioType.GRIDSHOT [preexistingTarget] none
        "abc123def" 0 0 0 0 0).1.map TargetEntity.id).Nodup := by
  simp [spawnTarget, preexistingTarget]

/-- C4 (amended): `spawn` assigns the drawn random string as the id with no
check against the live targets, so the store's ids after a spawn are the old
ids plus the draw, and they are pairwise distinct exactly when they were
before and the draw differs from every live id — uniqueness is only as good
as the random draw, not a hard invariant enforced by construction. -/
theorem c4_spawn_id_append (scenario : ScenarioType)
    (currentList : List TargetEntity) (fixedPos : Option Vec3)
    (idDraw : String) (r1 r2 r3 rs rv : ℚ) :
    ((spawnTarget scenario currentList fixedPos idDraw r1 r2 r3 rs rv).1.map
        TargetEntity.id
      = currentList.map TargetEntity.id ++ [idDraw]) ∧
    (((spawnTarget scenario currentList fixedPos idDraw r1 r2 r3 rs rv).1.map
        TargetEntity.id).Nodup
      ↔ (currentList.map TargetEntity.id).Nodup ∧
        idDraw ∉ currentList.map TargetEntity.id) := by
  have h1 : (spawnTarget scenario currentList fixedPos idDraw r1 r2 r3 rs rv).1.map
      TargetEntity.id = currentList.map TargetEntity.id ++ [idDraw] := by
    unfold spawnTarget
    simp
  refine ⟨h1, ?_⟩
  rw [h1]
  simp [List.nodup_append]

/-- C2 (evaluating the code at the failing input): with the fired ray
perpendicular to the camera forward direction — parallel to the
miss-projection plane — the plane intersection does fail (`none`), but the
pushed record is not offset-less: `if (intersection)` tests the always-truthy
pre-allocated `Vector3`, so the record is built from the never-written zero
vector and carries defined `relativeX`, `relativeY`, `distanceFromCenter`
and `targetVelocityX` fields. -/
theorem c2_parallel_ray_record_eval :
    Vec3.dot c2ray.direction c2cam.forward = 0 ∧
    c2ray.intersectPlane (planeThrough c2cam.forward c2target.position) = none ∧
    missShotRecord c2cam c2ray 0 c2target =
      ⟨0, false, none, some 0, some 0, some 25, some 0⟩ ∧
    (missShotRecord c2cam c2ray 0 c2target).relativeX ≠ none := by
  norm_num [missShotRecord, planeThrough, Ray3.intersectPlane, Ray3.distanceToPlane,
    Plane3.distanceToPoint, c2cam, c2ray, c2target, Vec3.dot, Vec3.lengthSq,
    Vec3.add_def, Vec3.sub_def, Vec3.smul_def]
  simp

/-- C6: under the TRACKING scenario, `overshoots` counts exactly the miss
records with a defined `target_velocity_x` whose `relative_x` sign matches
the velocity sign, `undershoots` the opposite-sign records; in particular a
log of 5 misses all with `relative_x > 0` and `target_velocity_x > 0`
yields `overshoots = 5`, `undershoots = 0` and the overshoot
recommendation. -/
theorem c6_overshoot_counts :
    (∀ stats : SessionStats, stats.scenario = ScenarioType.TRACKING →
      (analysis stats).overshoots =
        ((stats.missData.filter (fun s => !s.hit)).filter
            (fun m => overshootTest m && m.targetVelocityX.isSome)).length ∧
      (analysis stats).undershoots =
        ((stats.missData.filter (fun s => !s.hit)).filter
            (fun m => undershootTest m && m.targetVelocityX.isSome)).length) ∧
    analysis exampleTrackingStats = ⟨0, 5, 0, 0, 5, 0, overshootMsg⟩ := by
  constructor
  · intro stats hscn
    by_cases hm : (stats.missData.filter (fun s => !s.hit)).length = 0
    · have hemp : stats.missData.filter (fun s => !s.hit) = [] :=
        List.length_eq_zero.mp hm
      simp [analysis, hemp]
    · simp [analysis, hscn, hm, List.filter_filter, Bool.and_assoc]
  · norm_num [analysis, exampleTrackingStats, trackMiss, overshootTest,
      undershootTest, optPos, optNeg]

/-- Witness for C6 at the concrete 5-miss TRACKING log. -/
theorem c6_overshoot_counts_witness :
    exampleTrackingStats.scenario = ScenarioType.TRACKING ∧
    (analysis exampleTrackingStats).overshoots =
      ((exampleTrackingStats.missData.filter (fun s => !s.hit)).filter
          (fun m => overshootTest m && m.targetVelocityX.isSome)).length :=
  ⟨rfl, (c6_overshoot_counts.1 exampleTrackingStats rfl).1⟩

/-- C9: the configured sensitivity multiplier is received by the controller
but consumed by no core computation — two runs differing only in
sensitivity produce the identical evolved state (targets, score, shot log),
identical session-summary fields and identical analysis; the value only
appears verbatim in the summary's `sensitivity` field. -/
theorem c9_sensitivity_noninterference (sens1 sens2 : ℚ)
    (scenario : ScenarioType) (s0 : GameState) (events : List CoreEvent) :
    runCore sens1 scenario s0 events = runCore sens2 scenario s0 events ∧
    (runSession sens1 scenario s0 events).score
        = (runSession sens2 scenario s0 events).score ∧
    (runSession sens1 scenario s0 events).shotsFired
        = (runSession sens2 scenario s0 events).shotsFired ∧
    (runSession sens1 scenario s0 events).shotsHit
        = (runSession sens2 scenario s0 events).shotsHit ∧
    (runSession sens1 scenario s0 events).accuracy
        = (runSession sens2 scenario s0 events).accuracy ∧
    (runSession sens1 scenario s0 events).missData
        = (runSession sens2 scenario s0 events).missData ∧
    analysis (runSession sens1 scenario s0 events)
        = analysis (runSession sens2 scenario s0 events) ∧
    (runSession sens1 scenario s0 events).sensitivity = sens1 ∧
    (runSession sens2 scenario s0 events).sensitivity = sens2 :=
  ⟨rfl, rfl, rfl, rfl, rfl, rfl, rfl, rfl, rfl⟩

/-- Projection of `resolveStep`: the hit flag is or-accumulated. -/
lemma resolveStep_hitFound (camPos rayDir : Vec3) (acc : ResolveAcc)
    (t : TargetEntity) :
    (resolveStep camPos rayDir acc t).hitFound
      = (acc.hitFound || isHit camPos rayDir t) := rfl

/-- Projection of `resolveStep`: a passing target overwrites the id. -/
lemma resolveStep_hitTargetId (camPos rayDir : Vec3) (acc : ResolveAcc)
    (t : TargetEntity) :
    (resolveStep camPos rayDir acc t).hitTargetId
      = if isHit camPos rayDir t then t.id else acc.hitTargetId := rfl

/-- The fold of `resolveStep` reports, over any accumulator, whether any
target passed the hit test and the id of the last target passing it. -/
lemma resolve_foldl_spec (camPos rayDir : Vec3) :
    ∀ (ts : List TargetEntity) (acc : ResolveAcc),
      (ts.foldl (resolveStep camPos rayDir) acc).hitFound
          = (acc.hitFound || ts.any (isHit camPos rayDir)) ∧
      (ts.foldl (resolveStep camPos rayDir) acc).hitTargetId
          = ((ts.filter (isHit camPos rayDir)).map TargetEntity.id).getLastD
              acc.hitTargetId := by
  intro ts
  induction ts with
  | nil => intro acc; simp
  | cons t ts ih =>
      intro acc
      rcases ih (resolveStep camPos rayDir acc t) with ⟨ih1, ih2⟩
      constructor
      · rw [List.foldl_cons, ih1, resolveStep_hitFound, List.any_cons,
          Bool.or_assoc]
      · rw [List.foldl_cons, ih2, resolveStep_hitTargetId]
        by_cases h : isHit camPos rayDir t = true
        · rw [if_pos h, List.filter_cons, if_pos h, List.map_cons,
            List.getLastD_cons]
        · rw [if_neg h, List.filter_cons, if_neg h]

/-- C1 (amended): when several live targets pass the hit test on the same
fire event, the reported hit id is the **last** such target in Target Store
iteration order — each passing target overwrites `hitTargetId`, so the
first-encountered target does not win. -/
theorem c1_last_hit_wins (camPos rayDir : Vec3) (targets : List TargetEntity) :
    (resolve camPos rayDir targets).hitFound
        = targets.any (isHit camPos rayDir) ∧
    (resolve camPos rayDir targets).hitTargetId
        = ((targets.filter (isHit camPos rayDir)).map TargetEntity.id).getLastD "" := by
  have h := resolve_foldl_spec camPos rayDir targets ⟨false, "", none⟩
  simpa [resolve] using h

/-- C1 counterexample: two overlapping hits — `tgtA` (id "a") is the first
target in iteration order passing the hit test, yet the resolver reports
the second one's id "b". -/
theorem c1_first_hit_counterexample :
    isHit originV negZ tgtA = true ∧
    isHit originV negZ tgtB = true ∧
    (resolve originV negZ [tgtA, tgtB]).hitFound = true ∧
    tgtA.id = "a" ∧
    (resolve originV negZ [tgtA, tgtB]).hitTargetId = "b" ∧
    (resolve originV negZ [tgtA, tgtB]).hitTargetId ≠ tgtA.id := by
  norm_num [resolve, resolveStep, updateBest, isHit, sqrtLtQ, hitTestDistSq,
    angleKey, sqrtRatGt, tgtA, tgtB, originV, negZ, Vec3.dot, Vec3.lengthSq,
    Vec3.add_def, Vec3.sub_def, Vec3.smul_def]
  decide

/-- C5: every fire event appends exactly one record at the end of the shot
log and leaves the existing records untouched; hence over any sequence of
fire events the log grows by exactly one record per shot, in fire order,
with the prior log always an initial segment. -/
theorem c5_one_record_per_shot :
    (∀ (scenario : ScenarioType) (cam : Camera) (now : ℕ) (idDraw : String)
        (r1 r2 r3 rs rv : ℚ) (s : GameState),
      (handleShoot scenario cam now idDraw r1 r2 r3 rs rv s).shotData.length
          = s.shotData.length + 1 ∧
      s.shotData <+: (handleShoot scenario cam now idDraw r1 r2 r3 rs rv s).shotData) ∧
    (∀ (scenario : ScenarioType) (fires : List FireEvent) (s : GameState),
      (runShots scenario fires s).shotData.length
          = s.shotData.length + fires.length ∧
      s.shotData <+: (runShots scenario fires s).shotData) := by
  have step : ∀ (scenario : ScenarioType) (cam : Camera) (now : ℕ)
      (idDraw : String) (r1 r2 r3 rs rv : ℚ) (s : GameState),
      (handleShoot scenario cam now idDraw r1 r2 r3 rs rv s).shotData.length
          = s.shotData.length + 1 ∧
      s.shotData <+: (handleShoot scenario cam now idDraw r1 r2 r3 rs rv s).shotData := by
    intro scenario cam now idDraw r1 r2 r3 rs rv s
    simp only [handleShoot]
    split
    · exact ⟨by simp, ⟨_, rfl⟩⟩
    · split
      · exact ⟨by simp, ⟨_, rfl⟩⟩
      · exact ⟨by simp, ⟨_, rfl⟩⟩
  refine ⟨step, ?_⟩
  intro scenario fires
  induction fires with
  | nil => intro s; simp [runShots]
  | cons f fs ih =>
      intro s
      have hs := step scenario f.cam f.now f.idDraw f.r1 f.r2 f.r3 f.rs f.rv s
      have ht := ih (handleShoot scenario f.cam f.now f.idDraw f.r1 f.r2 f.r3 f.rs f.rv s)
      have hrun : runShots scenario (f :: fs) s
          = runShots scenario fs (handleShoot scenario f.cam f.now f.idDraw
              f.r1 f.r2 f.r3 f.rs f.rv s) := rfl
      constructor
      · rw [hrun, ht.1, hs.1]
        simp only [List.length_cons]
        omega
      · rw [hrun]
        exact hs.2.trans ht.2

/-- Vector identity: translating both endpoints leaves a difference
unchanged. -/
lemma vec_sub_translate (p c v : Vec3) : (p + v) - (c + v) = p - c := by
  ext <;> simp only [Vec3.add_def, Vec3.sub_def] <;> ring

/-- Vector identity for the closest-point difference under translation. -/
lemma vec_shift (c w p v : Vec3) : ((c + v) + w) - (p + v) = (c + w) - p := by
  ext <;> simp only [Vec3.add_def, Vec3.sub_def] <;> ring

/-- The ray-to-centre squared distance is translation invariant. -/
lemma hitTestDistSq_translate (camPos rayDir v : Vec3) (t : TargetEntity) :
    hitTestDistSq (camPos + v) rayDir (translateT v t)
      = hitTestDistSq camPos rayDir t := by
  simp only [hitTestDistSq, translateT, Vec3.add_def, Vec3.sub_def,
    Vec3.smul_def, Vec3.lengthSq, Vec3.dot]
  ring

/-- The hit test is translation invariant. -/
lemma isHit_translate (camPos rayDir v : Vec3) (t : TargetEntity) :
    isHit (camPos + v) rayDir (translateT v t) = isHit camPos rayDir t := by
  unfold isHit
  rw [hitTestDistSq_translate]
  exact rfl

/-- The angle key of the intended-target scan is translation invariant. -/
lemma angleKey_translate (rayDir camPos v : Vec3) (t : TargetEntity) :
    angleKey rayDir ((translateT v t).position - (camPos + v))
      = angleKey rayDir (t.position - camPos) := by
  have hv : (translateT v t).position - (camPos + v) = t.position - camPos := by
    show (t.position + v) - (camPos + v) = t.position - camPos
    exact vec_sub_translate t.position camPos v
  rw [hv]

/-- The running-minimum update commutes with translation of the stored
entry. -/
lemma updateBest_translate (camPos rayDir v : Vec3)
    (best : Option (ℚ × ℚ × TargetEntity)) (t : TargetEntity) :
    updateBest (camPos + v) rayDir (bmap v best) (translateT v t)
      = bmap v (updateBest camPos rayDir best t) := by
  have hk := angleKey_translate rayDir camPos v t
  cases best with
  | none =>
      simp only [updateBest, bmap, Option.map_none', Option.map_some', hk]
  | some b =>
      obtain ⟨a0, m0, t0⟩ := b
      simp only [updateBest, bmap, Option.map_none', Option.map_some', hk]
      by_cases hc : sqrtRatGt (angleKey rayDir (t.position - camPos)).1
          (angleKey rayDir (t.position - camPos)).2 a0 m0 = true
      · rw [if_pos hc, if_pos hc]
        exact rfl
      · rw [if_neg hc, if_neg hc]
        exact rfl

/-- The whole scan commutes with translation of ray origin and targets:
hit flag and hit id agree, and the stored best entry is the translated
one. -/
lemma resolve_translate (camPos rayDir v : Vec3) :
    ∀ (ts : List TargetEntity) (hf : Bool) (hid : String)
      (best : Option (ℚ × ℚ × TargetEntity)),
      (ts.map (translateT v)).foldl (resolveStep (camPos + v) rayDir)
          ⟨hf, hid, bmap v best⟩
        = ⟨(ts.foldl (resolveStep camPos rayDir) ⟨hf, hid, best⟩).hitFound,
           (ts.foldl (resolveStep camPos rayDir) ⟨hf, hid, best⟩).hitTargetId,
           bmap v (ts.foldl (resolveStep camPos rayDir) ⟨hf, hid, best⟩).best⟩ := by
  intro ts
  induction ts with
  | nil => intro hf hid best; rfl
  | cons t ts ih =>
      intro hf hid best
      rw [List.map_cons, List.foldl_cons, List.foldl_cons]
      have hstep : resolveStep (camPos + v) rayDir ⟨hf, hid, bmap v best⟩
            (translateT v t)
          = ⟨(resolveStep camPos rayDir ⟨hf, hid, best⟩ t).hitFound,
             (resolveStep camPos rayDir ⟨hf, hid, best⟩ t).hitTargetId,
             bmap v (resolveStep camPos rayDir ⟨hf, hid, best⟩ t).best⟩ := by
        simp only [resolveStep]
        rw [isHit_translate, updateBest_translate]
        exact rfl
      rw [hstep]
      exact ih _ _ _

/-- C8: translating the ray origin and every target position by the same
vector changes neither the hit/miss outcome, nor the reported hit id, nor
the intended-target choice. -/
theorem c8_translation_invariance (camPos rayDir v : Vec3)
    (targets : List TargetEntity) (hunit : Vec3.lengthSq rayDir = 1) :
    (resolve (camPos + v) rayDir (targets.map (translateT v))).hitFound
        = (resolve camPos rayDir targets).hitFound ∧
    (resolve (camPos + v) rayDir (targets.map (translateT v))).hitTargetId
        = (resolve camPos rayDir targets).hitTargetId ∧
    (resolve (camPos + v) rayDir (targets.map (translateT v))).intendedId
        = (resolve camPos rayDir targets).intendedId := by
  have hb : bmap v (none : Option (ℚ × ℚ × TargetEntity)) = none := rfl
  have h := resolve_translate camPos rayDir v targets false "" none
  rw [hb] at h
  unfold resolve
  rw [h]
  refine ⟨rfl, rfl, ?_⟩
  simp only [ResolveAcc.intendedId, bmap, Option.map_map]
  rfl

/-- Witness for C8 at a concrete unit direction, translation and target. -/
theorem c8_translation_invariance_witness :
    Vec3.lengthSq negZ = 1 ∧
    ((resolve (originV + ⟨4, 5, 6⟩) negZ ([tgtA].map (translateT ⟨4, 5, 6⟩))).hitFound
        = (resolve originV negZ [tgtA]).hitFound ∧
     (resolve (originV + ⟨4, 5, 6⟩) negZ ([tgtA].map (translateT ⟨4, 5, 6⟩))).hitTargetId
        = (resolve originV negZ [tgtA]).hitTargetId ∧
     (resolve (originV + ⟨4, 5, 6⟩) negZ ([tgtA].map (translateT ⟨4, 5, 6⟩))).intendedId
        = (resolve originV negZ [tgtA]).intendedId) :=
  ⟨by simp [Vec3.lengthSq, Vec3.dot, negZ],
   c8_translation_invariance originV negZ ⟨4, 5, 6⟩ [tgtA]
     (by simp [Vec3.lengthSq, Vec3.dot, negZ])⟩

end AimTrain
